import Mathlib

/-!
# Verification of the html-tstring template compiler

Shallow embedding of the `html_tstring` package: the node model and renderer
(`nodes.py`), the substitution engine (`processor.py`), the template cache
(`functools.lru_cache` on `_instrument_and_parse`), and the legacy
builder/resolver (`html.py` over `element.py`), together with proofs about
the claims of the specification.

Machine strings are Lean `String`s; Python `dict`s are association lists in
insertion order; Python exceptions are modelled with `Except` and explicit
error variants carrying the exact message text built by the source.
-/

/-! ## Escaping primitives (`html.escape`)

`html.escape(s, quote=False)` replaces `&`, then `<`, then `>`, in that
order; with `quote=True` it additionally replaces the double and single
quote.  Every pattern is a single character and `&` — the only character
occurring in the replacement texts — is replaced before any replacement
introduces a new one, so the sequential replaces equal the simultaneous
character map below. -/

def escapeTextChar (c : Char) : List Char :=
  if c = '&' then "&amp;".data
  else if c = '<' then "&lt;".data
  else if c = '>' then "&gt;".data
  else [c]

def escapeText (s : String) : String :=
  String.mk (s.data.foldr (fun c acc => escapeTextChar c ++ acc) [])

def escapeAttrChar (c : Char) : List Char :=
  if c = '&' then "&amp;".data
  else if c = '<' then "&lt;".data
  else if c = '>' then "&gt;".data
  else if c = '"' then "&quot;".data
  else if c = '\x27' then "&#x27;".data
  else [c]

def escapeAttr (s : String) : String :=
  String.mk (s.data.foldr (fun c acc => escapeAttrChar c ++ acc) [])

/-! ## Element classes (`nodes.py`) -/

def voidElements : List String :=
  ["area", "base", "br", "col", "embed", "hr", "img", "input",
   "link", "meta", "param", "source", "track", "wbr"]

def cdataContentElements : List String := ["script", "style"]

def rcdataContentElements : List String := ["textarea", "title"]

def contentElements : List String :=
  cdataContentElements ++ rcdataContentElements

/-! ## Node model (`nodes.py`)

`Text.text` holds either a plain `str` (escaped at render time) or an object
with an `__html__` dunder (a Safe Value such as `markupsafe.Markup`), whose
`__html__()` string is emitted verbatim.  `TextContent.raw` models the plain
string, `TextContent.safe` models a Safe Value by its `__html__()` string. -/

inductive TextContent where
  | raw (s : String)
  | safe (s : String)
  deriving DecidableEq, Repr

/-- Source `str(self.text)`: both a plain string and a `Markup` (a `str` subclass)
stringify to their underlying character data. -/
def TextContent.str : TextContent → String
  | .raw s => s
  | .safe s => s

inductive PNode where
  | text (content : TextContent)
  | elem (tag : String) (attrs : List (String × Option String))
      (children : List PNode)
  | frag (children : List PNode)
  | comment (s : String)
  | doctype (s : String)
  deriving Repr

/-- Source `Element.is_void` -/
def isVoid (tag : String) : Bool := voidElements.contains tag

/-- Attribute serialization inside `Element.__str__`: a `None` value renders
as a bare key, otherwise the value is attribute-escaped and double-quoted. -/
def attrsStr (attrs : List (String × Option String)) : String :=
  String.join (attrs.map fun kv =>
    match kv.2 with
    | none => " " ++ kv.1
    | some v => " " ++ kv.1 ++ "=\"" ++ escapeAttr v ++ "\"")

/-- Source `Text._as_unescaped`: the text as-is (for raw strings) or the
`__html__()` content (for Safe Values), with no escaping. -/
def asUnescaped : TextContent → String
  | .raw s => s
  | .safe s => s

mutual

/-- Source `__str__` of the `nodes.py` node classes. -/
def strNode : PNode → String
  | .text (.raw s) => escapeText s
  | .text (.safe s) => s
  | .elem tag attrs children =>
      if isVoid tag then "<" ++ tag ++ attrsStr attrs ++ " />"
      else if children.isEmpty then
        "<" ++ tag ++ attrsStr attrs ++ "></" ++ tag ++ ">"
      else if contentElements.contains tag then
        "<" ++ tag ++ attrsStr attrs ++ ">" ++ strNodesUnescaped children
          ++ "</" ++ tag ++ ">"
      else
        "<" ++ tag ++ attrsStr attrs ++ ">" ++ strNodes children
          ++ "</" ++ tag ++ ">"
  | .frag children => strNodes children
  | .comment s => "<!--" ++ s ++ "-->"
  | .doctype s => "<!DOCTYPE " ++ s ++ ">"

/-- Children of an ordinary element: `"".join(str(child) ...)`. -/
def strNodes : List PNode → String
  | [] => ""
  | c :: cs => strNode c ++ strNodes cs

/-- Children of a CDATA/RCDATA content element: direct `Text` children are
emitted via `_as_unescaped`, all other children via `str`. -/
def strNodesUnescaped : List PNode → String
  | [] => ""
  | .text tc :: cs => asUnescaped tc ++ strNodesUnescaped cs
  | c :: cs => strNode c ++ strNodesUnescaped cs

end

/-! ## Substitution errors (`processor.py`)

The source raises Python `TypeError` / `ValueError` (plus `IndexError` on a
bad interpolation index); the spec groups the coercion failures under the
name `TemplateValueError`.  Messages carry the exact text built by the
source. -/

inductive SubErr where
  | typeError (msg : String)
  | valueError (msg : String)
  | indexError
  | outOfFuel
  deriving DecidableEq, Repr

/-! ## Interpolation values

A closed universe of the Python value shapes the substitution engine
dispatches on.  `vmarkup` is a `markupsafe.Markup` (a `str` subclass with an
`__html__` dunder), `vhtmlObj` a non-`str` object with `__html__`, `vpair` a
2-tuple whose first component is a string, `vdict` a dict in insertion
order with string keys (as in every use in the repository), and `vtempl`
a nested `Template`, represented by its cached placeholder tree (the output
of the Tree Builder / Template Cache for its literal strings; `parser.py` is
not under `src/`) together with its interpolations
(value, format-spec) — exactly what `html()` consumes. -/

inductive PValue where
  | vstr (s : String)
  | vmarkup (s : String)
  | vhtmlObj (s : String)
  | vbool (b : Bool)
  | vnone
  | vint (n : Int)
  | vdict (entries : List (String × PValue))
  | vlist (vs : List PValue)
  | vpair (k : String) (v : PValue)
  | vnode (n : PNode)
  | vtempl (ptree : PNode) (interps : List (PValue × Option String))

/-- Source `type(value).__name__`, as used in the error messages. -/
def typeName : PValue → String
  | .vstr _ => "str"
  | .vmarkup _ => "Markup"
  | .vhtmlObj _ => "object"
  | .vbool _ => "bool"
  | .vnone => "NoneType"
  | .vint _ => "int"
  | .vdict _ => "dict"
  | .vlist _ => "list"
  | .vpair _ _ => "tuple"
  | .vnode n =>
      match n with
      | .text _ => "Text"
      | .elem _ _ _ => "Element"
      | .frag _ => "Fragment"
      | .comment _ => "Comment"
      | .doctype _ => "DocumentType"
  | .vtempl _ _ => "Template"

/-- Python `str(value)` for the shapes the engine stringifies.  A `Node`
stringifies through the `nodes.py` renderer.  The `vhtmlObj`, `vdict`,
`vlist`, `vpair` and `vtempl` arms stand in for Python object reprs; no
theorem relies on them. -/
def pyStr : PValue → String
  | .vstr s => s
  | .vmarkup s => s
  | .vhtmlObj _ => "<object>"
  | .vbool true => "True"
  | .vbool false => "False"
  | .vnone => "None"
  | .vint n => toString n
  | .vdict _ => "<dict>"
  | .vlist _ => "<list>"
  | .vpair _ _ => "<tuple>"
  | .vnode n => strNode n
  | .vtempl _ _ => "<template>"

/-- Python truthiness for the shapes above. -/
def pyTruthy : PValue → Bool
  | .vstr s => s ≠ ""
  | .vmarkup s => s ≠ ""
  | .vhtmlObj _ => true
  | .vbool b => b
  | .vnone => false
  | .vint n => n ≠ 0
  | .vdict es => ¬es.isEmpty
  | .vlist vs => ¬vs.isEmpty
  | .vpair _ _ => true
  | .vnode _ => true
  | .vtempl _ _ => true

/-- Source `markupsafe.Markup(value)`: honors an `__html__` dunder, otherwise
stringifies. -/
def markupStr : PValue → String
  | .vmarkup s => s
  | .vhtmlObj s => s
  | .vnode n => strNode n
  | v => pyStr v

/-- Source `_format_safe`: asserts the format spec is "safe" and wraps the value in
`Markup`. -/
def formatSafe (v : PValue) : PValue := .vmarkup (markupStr v)

/-- Source `format_interpolation` over `CUSTOM_FORMATTERS`: the "safe" spec invokes
`_format_safe`.  Modelled from the spec: `base_format_interpolation`
(`utils.py`, not under `src/`) leaves a value with no conversion directive
untouched, per §3 "Carries: the raw value, and (optionally) a conversion
directive … that the Substitution Engine must honor before applying default
coercion". -/
def formatInterpolation (v : PValue) (conv : Option String) : PValue :=
  match conv with
  | some "safe" => formatSafe v
  | _ => v

/-! ## Placeholder codec (`processor.py`)

`_PLACEHOLDER_PREFIX` carries a per-process random salt; the salt is fixed
arbitrarily here (no behavior depends on its spelling). -/

def placeholderHead : String := "t@ph-abcd-"

/-- Source `_placeholder(i)` -/
def placeholder (i : Nat) : String := placeholderHead ++ toString i

/-- Source `s.startswith(_PLACEHOLDER_PREFIX)` (character-level so that concrete
evaluation reduces). -/
def phStartsWith (s : String) : Bool :=
  placeholderHead.data.isPrefixOf s.data

/-- Source `s[_PP_LEN:]` -/
def phRest (s : String) : String :=
  String.mk (s.data.drop placeholderHead.data.length)

/-- Source `_placholder_index`: `int(s[_PP_LEN:])`; `none` models the `ValueError`
of `int()` on non-numeric text (placeholders only ever carry plain digits;
the signs/whitespace/underscores `int()` would also accept are not
modelled). -/
def phIndex (s : String) : Option Nat :=
  match (phRest s).data with
  | [] => none
  | l =>
      if l.all Char.isDigit then
        some (l.foldl (fun acc c => acc * 10 + (c.toNat - 48)) 0)
      else none

/-- Look up `interpolations[index]` for a placeholder string and apply
`format_interpolation`. -/
def lookupInterp (interps : List (PValue × Option String)) (s : String) :
    Except SubErr PValue :=
  match phIndex s with
  | none => .error (.valueError
      ("invalid literal for int() with base 10: \x27" ++ phRest s ++ "\x27"))
  | some i =>
      match interps.get? i with
      | none => .error .indexError
      | some (v, conv) => .ok (formatInterpolation v conv)

/-! ## Dict semantics -/

/-- Python dict assignment `m[k] = v`: overwriting keeps the key's original
insertion position; a new key is appended. -/
def dictInsert (m : List (String × α)) (k : String) (v : α) :
    List (String × α) :=
  if m.any (fun kv => kv.1 = k) then
    m.map (fun kv => if kv.1 = k then (k, v) else kv)
  else m ++ [(k, v)]

/-- Source `dict(value)` as used by `_force_dict`: a dict is copied; an iterable of
2-tuples is folded with last-wins assignment; the empty string yields the
empty dict (its iteration is empty); any other string raises `ValueError`
(its elements are length-1 characters); other shapes raise `TypeError`.
(Python also accepts exotic iterables of other length-2 sequences, e.g.
2-character strings inside a list; those are not modelled and no theorem
relies on them.) -/
def dictOfValue : PValue → Option (List (String × PValue))
  | .vdict es => some es
  | .vlist vs => do
      let pairs ← vs.mapM (fun v =>
        match v with
        | .vpair k v2 => some (k, v2)
        | _ => none)
      some (pairs.foldl (fun m kv => dictInsert m kv.1 kv.2) [])
  | .vstr s => if s = "" then some [] else none
  | .vmarkup s => if s = "" then some [] else none
  | _ => none

/-- Source `_force_dict`: convert to a dict, or raise `TypeError` naming the value
type and the attribute kind. -/
def forceDict (v : PValue) (kind : String) :
    Except SubErr (List (String × PValue)) :=
  match dictOfValue v with
  | some d => .ok d
  | none => .error (.typeError
      ("Cannot use " ++ typeName v ++ " as value for " ++ kind
        ++ " attributes"))

/-! ## Class-list coercion -/

mutual

/-- Modelled from the spec: `classnames` (`classnames.py`, not under
`src/`), §4.4 "the *class-list* algorithm — accepts strings (trimmed,
space-joined), nested lists/tuples (recursively flattened), mappings (key
kept iff value is truthy), `null`/`false`/boolean skipped; raises on any
other element type". -/
def classnamesCollect : PValue → Except SubErr (List String)
  | .vstr s => .ok [s]
  | .vmarkup s => .ok [s]
  | .vlist vs => classnamesCollectList vs
  | .vpair k v => do
      -- a 2-tuple iterates its components: the string contributes itself
      let tail ← classnamesCollect v
      return k :: tail
  | .vdict es => .ok ((es.filter (fun kv => pyTruthy kv.2)).map (fun kv => kv.1))
  | .vnone => .ok []
  | .vbool _ => .ok []
  | v => .error (.valueError ("Invalid class argument type: " ++ typeName v))

/-- Modelled from the spec: elementwise recursion of the class-list
algorithm over a list/tuple. -/
def classnamesCollectList : List PValue → Except SubErr (List String)
  | [] => .ok []
  | v :: vs => do
      let head ← classnamesCollect v
      let tail ← classnamesCollectList vs
      return head ++ tail

end

/-- Python `str.strip()`'s whitespace set. -/
def pyIsSpace (c : Char) : Bool :=
  c = ' ' || c = '\t' || c = '\n' || c = '\r' || c = '\x0b' || c = '\x0c'

/-- Python `str.strip()` (character-level so that concrete evaluation
reduces). -/
def strTrim (s : String) : String :=
  String.mk (((s.data.dropWhile pyIsSpace).reverse.dropWhile pyIsSpace).reverse)

/-- Modelled from the spec: the class-list algorithm's final join — parts
trimmed and space-joined, empties skipped. -/
def classnames (v : PValue) : Except SubErr String := do
  let parts ← classnamesCollect v
  return String.intercalate " " ((parts.map strTrim).filter (fun s => s ≠ ""))

/-! ## Attribute substitution (`processor.py`) -/

/-- Source `_substitute_aria_attrs`: `is True` ⇒ "true", `is False` ⇒ "false",
`is None` ⇒ omitted, otherwise stringified. -/
def substituteAriaAttrs (value : PValue) :
    Except SubErr (List (String × Option String)) := do
  let d ← forceDict value "aria"
  return d.filterMap (fun kv =>
    match kv.2 with
    | .vbool true => some ("aria-" ++ kv.1, some "true")
    | .vbool false => some ("aria-" ++ kv.1, some "false")
    | .vnone => none
    | v => some ("aria-" ++ kv.1, some (pyStr v)))

/-- The `sub_v not in (False, None)` test of `processor.py`: Python `in`
compares with `==`, so the int `0` (and `False`, `None` themselves) fail
it and are dropped. -/
def eqFalseOrNone : PValue → Bool
  | .vbool false => true
  | .vnone => true
  | .vint n => n == 0
  | _ => false

/-- Source `_substitute_data_attrs`: `is True` ⇒ valueless attribute,
values `in (False, None)` ⇒ omitted, otherwise stringified. -/
def substituteDataAttrs (value : PValue) :
    Except SubErr (List (String × Option String)) := do
  let d ← forceDict value "data"
  return d.filterMap (fun kv =>
    match kv.2 with
    | .vbool true => some ("data-" ++ kv.1, none)
    | v => if eqFalseOrNone v then none else some ("data-" ++ kv.1, some (pyStr v)))

/-- Source `_substitute_class_attr` -/
def substituteClassAttr (value : PValue) :
    Except SubErr (List (String × Option String)) := do
  let cls ← classnames value
  return [("class", some cls)]

/-- The `"; ".join(f"{k}: {v}" …)` style join. -/
def joinStyle (d : List (String × PValue)) : String :=
  String.intercalate "; " (d.map (fun kv => kv.1 ++ ": " ++ pyStr kv.2))

/-- Source `_substitute_style_attr`: a dict-coercible value is joined as
`prop: value` pairs; the `TypeError` of `_force_dict` is caught and the
value stringified instead — this branch never raises. -/
def substituteStyleAttr (value : PValue) :
    Except SubErr (List (String × Option String)) :=
  match forceDict value "style" with
  | .ok d => .ok [("style", some (joinStyle d))]
  | .error _ => .ok [("style", some (pyStr value))]

/-- One `sub_k, sub_v` entry of the dict arm (and of the 2-tuple case of
the iterable arm) of `_substitute_attr`'s general branch. -/
def plainSubEntry (k : String) (v : PValue) : Option (String × Option String) :=
  match v with
  | .vbool true => some (k, none)
  | v => if eqFalseOrNone v then none else some (k, some (pyStr v))

/-- The `Iterable` arm of `_substitute_attr`'s general branch: 2-tuples are
treated as key/value entries, plain strings (and `Markup`s) become valueless
attributes, anything else raises `TypeError`. -/
def substituteAttrIter (key : String) :
    List PValue → Except SubErr (List (String × Option String))
  | [] => .ok []
  | item :: rest => do
      let head ← match item with
        | .vpair k v2 => pure (match plainSubEntry k v2 with
            | some e => [e]
            | none => [])
        | .vstr s => pure [(s, (none : Option String))]
        | .vmarkup s => pure [(s, (none : Option String))]
        | it => Except.error (.typeError
            ("Cannot use " ++ typeName it
              ++ " as attribute key-value pair in iterable for attribute \x27"
              ++ key ++ "\x27"))
      let tail ← substituteAttrIter key rest
      return head ++ tail

/-- Source `_substitute_attr`: the four `CUSTOM_ATTR_HANDLERS` keys dispatch to
their handlers; otherwise the general branch matches, in source order:
`str` (which includes `Markup`), `True`, `False | None`, `dict`,
`Iterable` (a 2-tuple value iterates its two components), and a final
`TypeError` arm. -/
def substituteAttr (key : String) (value : PValue) :
    Except SubErr (List (String × Option String)) :=
  if key = "class" then substituteClassAttr value
  else if key = "data" then substituteDataAttrs value
  else if key = "style" then substituteStyleAttr value
  else if key = "aria" then substituteAriaAttrs value
  else
    match value with
    | .vstr s => .ok [(key, some s)]
    | .vmarkup s => .ok [(key, some s)]
    | .vbool true => .ok [(key, none)]
    | .vbool false => .ok []
    | .vnone => .ok []
    | .vdict d => .ok (d.filterMap (fun kv => plainSubEntry kv.1 kv.2))
    | .vlist items => substituteAttrIter key items
    | .vpair k v2 => substituteAttrIter key [.vstr k, v2]
    -- A Python Template is itself iterable and would take the Iterable arm
    -- (its string parts yield valueless attributes until its first
    -- Interpolation part raises there); `vtempl` does not carry the raw
    -- template parts and no theorem exercises a Template in attribute
    -- position, so it falls to this final arm.
    | v => .error (.typeError
        ("Cannot use " ++ typeName v ++ " as attribute value for attribute \x27"
          ++ key ++ "\x27"))

/-- Source `_substitute_spread_attrs`: force the value to a dict and run every
entry back through `_substitute_attr`. -/
def substituteSpreadAttrs (value : PValue) :
    Except SubErr (List (String × Option String)) := do
  let d ← forceDict value "spread"
  let parts ← d.mapM (fun kv => substituteAttr kv.1 kv.2)
  return parts.flatten

/-- One step of the loop of `_substitute_attrs`: dispatch a parsed
attribute whose value (or key) is a placeholder, folding the produced
pairs into `new_attrs` with dict assignment. -/
def substituteAttrsStep (interps : List (PValue × Option String))
    (acc : List (String × Option String)) (key : String)
    (value : Option String) :
    Except SubErr (List (String × Option String)) :=
  if (match value with
      | some v => v ≠ "" && phStartsWith v
      | none => false) then do
    let v := value.getD ""
    let pv ← lookupInterp interps v
    let subs ← substituteAttr key pv
    return subs.foldl (fun m e => dictInsert m e.1 e.2) acc
  else if phStartsWith key then do
    let pv ← lookupInterp interps key
    let subs ← substituteSpreadAttrs pv
    return subs.foldl (fun m e => dictInsert m e.1 e.2) acc
  else
    return dictInsert acc key value

/-- The loop of `_substitute_attrs` over the parsed attributes. -/
def substituteAttrsGo (interps : List (PValue × Option String))
    (acc : List (String × Option String)) :
    List (String × Option String) →
    Except SubErr (List (String × Option String))
  | [] => .ok acc
  | (key, value) :: rest => do
      let acc2 ← substituteAttrsStep interps acc key value
      substituteAttrsGo interps acc2 rest

/-- Source `_substitute_attrs` -/
def substituteAttrs (attrs : List (String × Option String))
    (interps : List (PValue × Option String)) :
    Except SubErr (List (String × Option String)) :=
  substituteAttrsGo interps [] attrs

/-- Source `Element.__post_init__` of `nodes.py`: an empty tag and a void element
with children are construction-time `ValueError`s. -/
def mkElementNode (tag : String) (attrs : List (String × Option String))
    (children : List PNode) : Except SubErr PNode :=
  if tag = "" then .error (.valueError "Element tag cannot be empty.")
  else if isVoid tag && !children.isEmpty then
    .error (.valueError ("Void element <" ++ tag ++ "> cannot have children."))
  else .ok (.elem tag attrs children)

/-! ## Node substitution (`processor.py`)

`_substitute_node` / `_substitute_and_flatten_children` /
`_node_from_value` recurse through nested templates (`html(value)` inside
`_node_from_value`), so the mutual block is driven by an explicit fuel that
strictly decreases on every call; `SubErr.outOfFuel` is unreachable for
every input actually evaluated (any sufficiently large fuel gives the same
result as the source's unbounded recursion). -/

mutual

/-- Source `_substitute_node`: a `Text` whose content starts with the placeholder
marker resolves its interpolation through `_node_from_value`; an `Element`
substitutes attributes and children (rebuilding through
`Element.__post_init__`); a `Fragment` substitutes children; everything
else is returned unchanged. -/
def substituteNode : Nat → PNode → List (PValue × Option String) →
    Except SubErr PNode
  | 0, _, _ => .error .outOfFuel
  | fuel + 1, p, interps =>
      match p with
      | .text c =>
          if phStartsWith (TextContent.str c) then do
            let v ← lookupInterp interps (TextContent.str c)
            nodeFromValue fuel v
          else .ok p
      | .elem tag attrs children => do
          let newAttrs ← substituteAttrs attrs interps
          let newChildren ← substituteChildren fuel children interps
          mkElementNode tag newAttrs newChildren
      | .frag children => do
          let newChildren ← substituteChildren fuel children interps
          return .frag newChildren
      | other => .ok other
termination_by structural fuel => fuel

/-- Source `_substitute_and_flatten_children`: substitute each child and splice a
resulting `Fragment`'s children into the parent's list. -/
def substituteChildren : Nat → List PNode → List (PValue × Option String) →
    Except SubErr (List PNode)
  | 0, _, _ => .error .outOfFuel
  | _ + 1, [], _ => .ok []
  | fuel + 1, c :: cs, interps => do
      let s ← substituteNode fuel c interps
      let rest ← substituteChildren fuel cs interps
      match s with
      | .frag inner => return inner ++ rest
      | other => return other :: rest
termination_by structural fuel _ _ => fuel

/-- Source `_node_from_value`, with the arms in source order: `case str()`
(a `Markup` is a `str` and lands here, keeping its `__html__` capability
inside `Text`), `case Node()`, `case Template()` (compiled recursively
through `html`) — and then `case HasHTMLDunder():`.  `HasHTMLDunder` is a
`typing.Protocol` without `@runtime_checkable`, and a class pattern
performs `isinstance`, which raises `TypeError` for such a protocol;
therefore every value reaching that arm raises, and the source's
`case False:`, `case Iterable():` and final stringify arms below it are
unreachable dead code. -/
def nodeFromValue : Nat → PValue → Except SubErr PNode
  | 0, _ => .error .outOfFuel
  | fuel + 1, v =>
      match v with
      | .vstr s => .ok (.text (.raw s))
      | .vmarkup s => .ok (.text (.safe s))
      | .vnode n => .ok n
      | .vtempl ptree interps => substituteNode fuel ptree interps
      | _ => .error (.typeError
          "Instance and class checks can only be used with @runtime_checkable protocols")
termination_by structural fuel => fuel

end

/-- Source `html(template)`: fetch the cached placeholder tree for the template's
literal strings and substitute the interpolations into it.  The tree
argument stands for `_instrument_and_parse(template.strings)`. -/
def htmlProc (fuel : Nat) (ptree : PNode)
    (interps : List (PValue × Option String)) : Except SubErr PNode :=
  substituteNode fuel ptree interps

/-! ## Template cache (`processor.py`)

`_instrument_and_parse` is decorated with `@lru_cache()`.  Called with no
arguments, `functools.lru_cache` memoizes with its default `maxsize=128`: a
bounded least-recently-used cache, not an unbounded one.  The cache key —
the template's tuple of literal strings — is abstracted as a `Nat`;
`buildTree` stands for the pure build
`parse_html_iter(_instrument(strings))`, and the state's `log` records
every build actually performed, in order. -/

def cacheCapacity : Nat := 128

/-- The pure tree build; an injective stand-in (builds are pure functions
of the key, so only identity of results matters). -/
def buildTree (k : Nat) : Nat := k

structure CacheState where
  /-- Cached entries, most recently used first. -/
  cache : List (Nat × Nat)
  /-- Keys in the order their builds were performed. -/
  log : List Nat
  deriving Repr

def emptyCache : CacheState := ⟨[], []⟩

def cacheLookup (c : List (Nat × Nat)) (k : Nat) : Option Nat :=
  (c.find? (fun kv => kv.1 == k)).map (fun kv => kv.2)

/-- One memoized call: a hit returns the cached tree and refreshes the
entry's recency; a miss builds, inserts the entry as most recent, and
drops the least recently used entry beyond `maxsize`. -/
def getOrBuild (st : CacheState) (k : Nat) : Nat × CacheState :=
  match cacheLookup st.cache k with
  | some v =>
      (v, ⟨(k, v) :: st.cache.filter (fun kv => kv.1 != k), st.log⟩)
  | none =>
      let v := buildTree k
      (v, ⟨((k, v) :: st.cache).take cacheCapacity, st.log ++ [k]⟩)

def runCacheFrom (st : CacheState) (trace : List Nat) : CacheState :=
  trace.foldl (fun st k => (getOrBuild st k).2) st

/-- A whole process run: the sequence of cache keys looked up, from the
initial empty cache. -/
def runCache (trace : List Nat) : CacheState :=
  runCacheFrom emptyCache trace

/-! ## Legacy pipeline (`html.py` over `element.py`)

`html.py` drives Python's `html.parser.HTMLParser` over the template text
(with the bookkeeping keys `ts-bk-<n>` fed in place of interpolations) and
resolves the resulting `ElementTuple` tree against the bookkeep map.  The
character-level tokenizer is the external collaborator of §6; it is
abstracted as the list of events it emits.  Per CPython, a self-closed tag
(`<br />`) produces `handle_startendtag`, whose default implementation
calls `handle_starttag` then `handle_endtag` — so both `<br />` and
`<br></br>` reach `ElementParser` as a start event followed by an end
event, while plain `<br>` is a single start event. -/

inductive HEvent where
  | start (tag : String) (attrs : List (String × Option String))
  | endTag (tag : String)
  | text (s : String)
  deriving Repr

/-- Source `ElementTuple | str`: the mutable parse-tree representation. -/
inductive PTup where
  | node (tag : String) (attrs : List (String × Option String))
      (children : List PTup)
  | text (s : String)
  deriving Repr

/-- One in-progress element of `ElementParser.stack`. -/
structure BFrame where
  tag : String
  attrs : List (String × Option String)
  children : List PTup
  deriving Repr

/-- The stack, top first; the synthetic root `("", {}, [])` sits at the
bottom. -/
abbrev BStack := List BFrame

/-- Source `ElementParser.append_child`: append to the children of the top of
stack.  (The stack is never empty; the empty case is unreachable.) -/
def appendChild (c : PTup) : BStack → BStack
  | top :: rest => { top with children := top.children ++ [c] } :: rest
  | [] => []

/-- Source `ElementParser.handle_endtag`.  With only the synthetic root on the
stack: for a void element, the CPython-#69445 duplicate of an end tag
already synthesized by `handle_starttag` is detected by inspecting
`children[-1]` and silently discarded — on an empty child list that very
subscript raises `IndexError` before the structural `ValueError` can be
reached; any other unmatched end tag raises the structural `ValueError`.
Otherwise the top frame is popped, checked against the closing tag, and
attached to the new top. -/
def handleEndtag (tag : String) : BStack → Except SubErr BStack
  | [root] =>
      if voidElements.contains tag then
        match root.children.getLast? with
        | none => .error .indexError
        | some (.node t _ _) =>
            if t = tag then .ok [root]
            else .error (.valueError ("Unexpected closing tag </" ++ tag
              ++ "> with no matching opening tag."))
        | some (.text _) => .error (.valueError ("Unexpected closing tag </"
            ++ tag ++ "> with no matching opening tag."))
      else .error (.valueError ("Unexpected closing tag </" ++ tag
        ++ "> with no matching opening tag."))
  | top :: rest =>
      if top.tag ≠ tag then
        .error (.valueError ("Mismatched closing tag </" ++ tag ++ "> for <"
          ++ top.tag ++ ">."))
      else .ok (appendChild (.node top.tag top.attrs top.children) rest)
  | [] => .error .indexError

/-- Source `ElementParser.handle_starttag`: push a frame; for a void element
immediately synthesize the end-tag event (CPython #69445). -/
def handleStarttag (tag : String) (attrs : List (String × Option String))
    (st : BStack) : Except SubErr BStack :=
  let st2 : BStack := ⟨tag, attrs, []⟩ :: st
  if voidElements.contains tag then handleEndtag tag st2 else .ok st2

/-- Dispatch one tokenizer event (`handle_data` appends a text child). -/
def processEvent (st : BStack) : HEvent → Except SubErr BStack
  | .start tag attrs => handleStarttag tag attrs st
  | .endTag tag => handleEndtag tag st
  | .text s => .ok (appendChild (.text s) st)

def runEvents : BStack → List HEvent → Except SubErr BStack
  | st, [] => .ok st
  | st, e :: es => do
      let st2 ← processEvent st e
      runEvents st2 es

/-- Source `ElementParser.get_root`: exactly the synthetic root may remain; a
single tuple child is unwrapped, otherwise the root itself is the result
(a fragment of siblings). -/
def getRoot : BStack → Except SubErr (String × List (String × Option String) × List PTup)
  | [root] =>
      match root.children with
      | [PTup.node t a c] => .ok (t, a, c)
      | cs => .ok (root.tag, root.attrs, cs)
  | _ => .error (.valueError "Invalid HTML structure: unclosed tags remain.")

/-- Feed all events from a fresh `ElementParser` and take the root. -/
def parseEvents (events : List HEvent) :
    Except SubErr (String × List (String × Option String) × List PTup) := do
  let st ← runEvents [⟨"", [], []⟩] events
  getRoot st

/-- Source `element.py`'s `Element | str` children universe: an immutable element
(tag, attrs, children) or a string child. -/
inductive EChild where
  | elem (tag : String) (attrs : List (String × Option String))
      (children : List EChild)
  | text (s : String)
  deriving Repr

/-- Source `Element.__post_init__` of `element.py`: a void element with children,
and a fragment (empty tag) with attributes, are construction-time
`ValueError`s. -/
def mkElement (tag : String) (attrs : List (String × Option String))
    (children : List EChild) : Except SubErr EChild :=
  if voidElements.contains tag && !children.isEmpty then
    .error (.valueError ("Void element <" ++ tag ++ "> cannot have children."))
  else if tag = "" && !attrs.isEmpty then
    .error (.valueError "Fragment elements cannot have attributes.")
  else .ok (.elem tag attrs children)

/-- The interpolation values the legacy resolver dispatches on.  `htempl`
is a nested `Template`, abstracted as the tokenizer events of its text
(with bookkeeping keys in interpolation positions) plus its bookkeep map —
exactly what `html()` consumes.  `hcall` is a component callable, invoked
with the resolved children (positional) and resolved attributes (named). -/
inductive HValue where
  | hstr (s : String)
  | hint (n : Int)
  | hbool (b : Bool)
  | hnone
  | helem (e : EChild)
  | hlist (vs : List HValue)
  | hdict (entries : List (String × HValue))
  | htempl (events : List HEvent) (bk : List (String × HValue))
  | hcall (f : List EChild → List (String × Option String) → HValue)

/-- Source `type(arg).__name__` for the legacy error messages. -/
def typeNameH : HValue → String
  | .hstr _ => "str"
  | .hint _ => "int"
  | .hbool _ => "bool"
  | .hnone => "NoneType"
  | .helem _ => "Element"
  | .hlist _ => "list"
  | .hdict _ => "dict"
  | .htempl _ _ => "Template"
  | .hcall _ => "function"

/-- Python `str(value)` in the legacy world.  The `helem`, `htempl` and
`hcall` arms stand in for Python's pretty renderer / object reprs; no
theorem relies on them. -/
def pyStrH : HValue → String
  | .hstr s => s
  | .hint n => toString n
  | .hbool true => "True"
  | .hbool false => "False"
  | .hnone => "None"
  | .helem _ => "<Element>"
  | .hlist _ => "<list>"
  | .hdict _ => "<dict>"
  | .htempl _ _ => "<template>"
  | .hcall _ => "<function>"

/-- Python `repr(value)` for the `!r` error messages; honest for the
shapes the theorems use (ints), stand-ins elsewhere. -/
def reprH : HValue → String
  | .hstr s => "\x27" ++ s ++ "\x27"
  | .hint n => toString n
  | .hbool true => "True"
  | .hbool false => "False"
  | .hnone => "None"
  | .helem _ => "<Element>"
  | .hlist _ => "<list>"
  | .hdict _ => "<dict>"
  | .htempl _ _ => "<template>"
  | .hcall _ => "<function>"

/-- Python truthiness in the legacy world (`bool(value)` in `clsx`). -/
def truthyH : HValue → Bool
  | .hstr s => s ≠ ""
  | .hint n => n ≠ 0
  | .hbool b => b
  | .hnone => false
  | .helem _ => true
  | .hlist vs => ¬vs.isEmpty
  | .hdict es => ¬es.isEmpty
  | .htempl _ _ => true
  | .hcall _ => true

/-- Source `bookkeep[key]`, as an association-list lookup. -/
def bkLookup (bk : List (String × HValue)) (s : String) : Option HValue :=
  (bk.find? (fun kv => kv.1 == s)).map (fun kv => kv.2)

mutual

/-- One argument of `clsx`: its contributions to the `classes` list.  A
string contributes itself; a list/tuple contributes the single string
`clsx(*arg)`; a dict contributes its truthy keys; `None` and booleans are
skipped; anything else raises `ValueError`. -/
def clsxOne : HValue → Except SubErr (List String)
  | .hstr s => .ok [s]
  | .hlist vs => do
      let s ← clsxStr vs
      return [s]
  | .hdict es => .ok ((es.filter (fun kv => truthyH kv.2)).map (fun kv => kv.1))
  | .hnone => .ok []
  | .hbool _ => .ok []
  | v => .error (.valueError ("Invalid class argument type: " ++ typeNameH v))

/-- The `classes` list accumulated over all arguments of `clsx`. -/
def clsxArgs : List HValue → Except SubErr (List String)
  | [] => .ok []
  | arg :: rest => do
      let head ← clsxOne arg
      let tail ← clsxArgs rest
      return head ++ tail

/-- Source `clsx(*args)`: the final `" ".join(stripped …)` over non-empty
stripped entries. -/
def clsxStr (args : List HValue) : Except SubErr String := do
  let classes ← clsxArgs args
  return String.intercalate " " ((classes.map strTrim).filter (fun s => s ≠ ""))

end

/-- Source `_clsx_single` -/
def clsxSingle : HValue → Except SubErr String
  | .hstr s => .ok (strTrim s)
  | .hlist vs => clsxStr vs
  | .hdict es =>
      .ok (String.intercalate " "
        ((es.filter (fun kv => truthyH kv.2)).map (fun kv => kv.1)))
  | .hnone => .ok ""
  | .hbool _ => .ok ""
  | v => .error (.valueError ("Invalid class argument type: " ++ typeNameH v))

/-- Source `_attrs._process_attr_key`: map one key/value from the template to
zero or more output attributes. -/
def processAttrKey (key : String) (value : HValue) :
    Except SubErr (List (String × Option String)) :=
  if key = "class" then do
    let s ← clsxSingle value
    return [(key, some s)]
  else if key = "data" then
    match value with
    | .hdict es => .ok (es.map (fun kv => ("data-" ++ kv.1, some (pyStrH kv.2))))
    | v => .error (.valueError
        ("Invalid value for \x27data\x27 attribute: expected dict, got "
          ++ typeNameH v))
  else if key = "aria" then
    match value with
    | .hdict es => .ok (es.map (fun kv => ("aria-" ++ kv.1, some (pyStrH kv.2))))
    | v => .error (.valueError
        ("Invalid value for \x27aria\x27 attribute: expected dict, got "
          ++ typeNameH v))
  else
    match value with
    | .hstr s => .ok [(key, some s)]
    | .hnone => .ok []
    | .hbool false => .ok []
    | .hbool true => .ok [(key, none)]
    | v => .ok [(key, some (pyStrH v))]

/-- The loop body of `_attrs` for one parsed attribute. -/
def attrsSubStep (bk : List (String × HValue))
    (acc : List (String × Option String)) (key : String)
    (value : Option String) : Except SubErr (List (String × Option String)) :=
  match value with
  | some v =>
      match bkLookup bk v with
      | some bkv => do
          let d ← processAttrKey key bkv
          return d.foldl (fun m e => dictInsert m e.1 e.2) acc
      | none => return dictInsert acc key (some v)
  | none =>
      match bkLookup bk key with
      | some bkv =>
          match bkv with
          | .hstr s => return dictInsert acc s none
          | .hdict es => do
              let parts ← es.mapM (fun kv => processAttrKey kv.1 kv.2)
              return parts.flatten.foldl (fun m e => dictInsert m e.1 e.2) acc
          | v => .error (.valueError
              ("Invalid attribute key substitution: " ++ reprH v))
      | none => return dictInsert acc key none

/-- Source `_attrs`: substitute bookkeeping keys in a parsed attribute map. -/
def attrsSub (bk : List (String × HValue)) :
    List (String × Option String) → Except SubErr (List (String × Option String)) :=
  go []
where
  go (acc : List (String × Option String)) :
      List (String × Option String) → Except SubErr (List (String × Option String))
    | [] => .ok acc
    | (key, value) :: rest => do
        let acc2 ← attrsSubStep bk acc key value
        go acc2 rest

/-! The `_children` / `_resolve_tag` / `_element_from_tuple` / `html`
resolution layer recurses through nested templates (`html(bk_value)`), so
the mutual block is driven by an explicit fuel decreasing on every call;
`SubErr.outOfFuel` is unreachable for the inputs evaluated (any
sufficiently large fuel agrees with the source's unbounded recursion). -/

mutual

/-- One item of the `(list, tuple)` arm inside `_children`: elements and
strings are appended, templates compiled through `html`, everything else
stringified. -/
def childItem : Nat → HValue → List (String × HValue) → Except SubErr EChild
  | 0, _, _ => .error .outOfFuel
  | fuel + 1, v, _bk =>
      match v with
      | .helem e => .ok e
      | .hstr s => .ok (.text s)
      | .htempl evs bk2 => htmlEvents fuel evs bk2
      | other => .ok (.text (pyStrH other))

/-- The loop of that arm over the list items. -/
def childItems : Nat → List HValue → List (String × HValue) →
    Except SubErr (List EChild)
  | 0, _, _ => .error .outOfFuel
  | _ + 1, [], _ => .ok []
  | fuel + 1, v :: vs, bk => do
      let c ← childItem fuel v bk
      let rest ← childItems fuel vs bk
      return c :: rest

/-- Source `_children`: a string child that is a bookkeeping key resolves its
interpolation — `Element | str` appended as-is, a `Template` compiled via
`html`, a list/tuple iterated (flat, per the source), anything else
stringified; other string children stay; tuple children recurse through
`_element_from_tuple`. -/
def childrenSub : Nat → List PTup → List (String × HValue) →
    Except SubErr (List EChild)
  | 0, _, _ => .error .outOfFuel
  | _ + 1, [], _ => .ok []
  | fuel + 1, child :: rest, bk => do
      let head ← match child with
        | .text s =>
            match bkLookup bk s with
            | some bkv =>
                match bkv with
                | .helem e => pure [e]
                | .hstr s2 => pure [EChild.text s2]
                | .htempl evs bk2 => do
                    let e ← htmlEvents fuel evs bk2
                    pure [e]
                | .hlist items => childItems fuel items bk
                | other => pure [EChild.text (pyStrH other)]
            | none => pure [EChild.text s]
        | .node t a c => do
            let e ← elementFromTuple fuel t a c bk
            pure [e]
      let tail ← childrenSub fuel rest bk
      return head ++ tail

/-- Source `_resolve_tag`: a bookkeeping key in tag position resolves to either a
literal tag name (string interpolation), or — for a callable — the result
of invoking it with the already-resolved children (positional) and
attributes (named): an `Element` replaces the element, a string becomes
the tag, a `Template` is compiled recursively, anything else raises
`ValueError`; a non-string non-callable interpolation raises
`ValueError`. -/
def resolveTag : Nat → String → List (String × HValue) →
    List (String × Option String) → List EChild →
    Except SubErr (String ⊕ EChild)
  | 0, _, _, _, _ => .error .outOfFuel
  | fuel + 1, tag, bk, attrs, children =>
      match bkLookup bk tag with
      | none => .ok (.inl tag)
      | some bkv =>
          match bkv with
          | .hstr s => .ok (.inl s)
          | .hcall f =>
              match f children attrs with
              | .helem e => .ok (.inr e)
              | .hstr s => .ok (.inl s)
              | .htempl evs bk2 => do
                  let e ← htmlEvents fuel evs bk2
                  return .inr e
              | other => .error (.valueError
                  ("Invalid tag callable result: " ++ reprH other))
          | other => .error (.valueError
              ("Invalid tag substitution: " ++ reprH other))

/-- Source `_element_from_tuple`: resolve attributes, then children, then the
tag; a resolved tag string builds a fresh `Element`, a resolved `Element`
replaces the tuple wholesale. -/
def elementFromTuple : Nat → String → List (String × Option String) →
    List PTup → List (String × HValue) → Except SubErr EChild
  | 0, _, _, _, _ => .error .outOfFuel
  | fuel + 1, tag, attrs, children, bk => do
      let a ← attrsSub bk attrs
      let cs ← childrenSub fuel children bk
      let tagOrElt ← resolveTag fuel tag bk a cs
      match tagOrElt with
      | .inl t => mkElement t a cs
      | .inr e => return e

/-- Source `html(template)` of `html.py`: feed the instrumented text (as
tokenizer events) through `ElementParser`, take the root, and resolve it
against the bookkeep map. -/
def htmlEvents : Nat → List HEvent → List (String × HValue) →
    Except SubErr EChild
  | 0, _, _ => .error .outOfFuel
  | fuel + 1, events, bk => do
      let root ← parseEvents events
      elementFromTuple fuel root.1 root.2.1 root.2.2 bk

end

/-! ## Concrete component scenario

The repository's `test_fragment_from_component` scenario:
`html(t"<table><tr><{Columns} /></tr></table>")` where `Columns()` returns
`t"<td>Column 1</td><td>Column 2</td>"`.  The tokenizer events below are
what Python's `HTMLParser` emits for the instrumented text (the callable
interpolation is fed as the bookkeeping key `ts-bk-0`; the self-closed
`<ts-bk-0 />` becomes a start event plus an end event). -/

def columnsEvents : List HEvent :=
  [.start "td" [], .text "Column 1", .endTag "td",
   .start "td" [], .text "Column 2", .endTag "td"]

def componentOuterEvents : List HEvent :=
  [.start "table" [], .start "tr" [], .start "ts-bk-0" [],
   .endTag "ts-bk-0", .endTag "tr", .endTag "table"]

/-- Bookkeep for the scenario: the `Columns` component ignores its
children/attributes and returns its two-cell template. -/
def columnsBk : List (String × HValue) :=
  [("ts-bk-0", .hcall (fun _ _ => .htempl columnsEvents []))]

/-! # Theorems about the claims -/

/-! ## Helper lemmas (shared) -/

theorem mapFst_filter_ne (c : List (Nat × Nat)) (k : Nat) :
    (c.filter (fun kv => kv.1 != k)).map Prod.fst
      = (c.map Prod.fst).filter (fun x => x != k) := by
  induction c with
  | nil => rfl
  | cons kv rest ih =>
      by_cases h : kv.1 = k <;> simp [List.filter_cons, h, ih]

theorem cacheLookup_eq_none (c : List (Nat × Nat)) (k : Nat) :
    cacheLookup c k = none → k ∉ c.map Prod.fst := by
  intro h hmem
  simp only [cacheLookup, Option.map_eq_none', List.find?_eq_none,
    beq_iff_eq, Prod.forall] at h
  obtain ⟨kv, hkv, hfst⟩ := List.mem_map.mp hmem
  exact h kv.1 kv.2 (by simpa using hkv) hfst

theorem cacheLookup_mem (c : List (Nat × Nat)) (k v : Nat) :
    cacheLookup c k = some v → k ∈ c.map Prod.fst := by
  induction c with
  | nil => intro h; simp [cacheLookup] at h
  | cons kv rest ih =>
      intro h
      rw [List.map_cons, List.mem_cons]
      by_cases hk : kv.1 = k
      · exact Or.inl hk.symm
      · refine Or.inr (ih ?_)
        simp only [cacheLookup] at h ⊢
        rwa [List.find?_cons_of_neg _ (by simp [hk])] at h

/-- Invariant run of the LRU cache: starting from a state whose cached
keys are exactly the logged keys (none yet duplicated), a run whose total
distinct-key footprint stays within the capacity never rebuilds a key, so
the build log stays duplicate-free. -/
theorem lruRunInv (trace : List Nat) :
    ∀ st : CacheState, (st.cache.map Prod.fst).Perm st.log → st.log.Nodup →
      (st.log ++ trace).toFinset.card ≤ cacheCapacity →
      (runCacheFrom st trace).log.Nodup := by
  induction trace with
  | nil => intro st _ hn _; simpa [runCacheFrom] using hn
  | cons k rest ih =>
      intro st hp hn hcard
      have hstep : runCacheFrom st (k :: rest)
          = runCacheFrom (getOrBuild st k).2 rest := rfl
      rw [hstep]
      cases hl : cacheLookup st.cache k with
      | some v =>
          have hk : k ∈ st.cache.map Prod.fst := cacheLookup_mem _ _ _ hl
          have hst : (getOrBuild st k).2
              = ⟨(k, v) :: st.cache.filter (fun kv => kv.1 != k), st.log⟩ := by
            simp [getOrBuild, hl]
          rw [hst]
          refine ih _ ?_ hn ?_
          · show ((k, v) :: st.cache.filter (fun kv => kv.1 != k)).map Prod.fst
                |>.Perm st.log
            rw [List.map_cons, mapFst_filter_ne]
            have hnf : (st.cache.map Prod.fst).Nodup := hp.nodup_iff.mpr hn
            rw [← hnf.erase_eq_filter k]
            exact ((List.perm_cons_erase hk).symm).trans hp
          · refine le_trans (Finset.card_le_card ?_) hcard
            intro x hx
            simp only [List.mem_toFinset, List.mem_append, List.mem_cons] at *
            tauto
      | none =>
          have hk : k ∉ st.cache.map Prod.fst := cacheLookup_eq_none _ _ hl
          have hklog : k ∉ st.log := fun hx => hk (hp.mem_iff.mpr hx)
          have hst : (getOrBuild st k).2
              = ⟨((k, buildTree k) :: st.cache).take cacheCapacity,
                 st.log ++ [k]⟩ := by
            simp [getOrBuild, hl]
          rw [hst]
          have hlen : st.cache.length = st.log.length := by
            simpa using hp.length_eq
          have hcap : st.log.length + 1 ≤ cacheCapacity := by
            have hsub : insert k st.log.toFinset
                ⊆ (st.log ++ k :: rest).toFinset := by
              intro x hx
              simp only [Finset.mem_insert, List.mem_toFinset, List.mem_append,
                List.mem_cons] at *
              tauto
            have h2 : (insert k st.log.toFinset).card
                = st.log.toFinset.card + 1 :=
              Finset.card_insert_of_not_mem (by simpa using hklog)
            have h3 : st.log.toFinset.card = st.log.length :=
              List.toFinset_card_of_nodup hn
            have h4 := Finset.card_le_card hsub
            omega
          have htake : ((k, buildTree k) :: st.cache).take cacheCapacity
              = (k, buildTree k) :: st.cache :=
            List.take_of_length_le (by simp [hlen]; omega)
          rw [htake]
          refine ih _ ?_ ?_ ?_
          · show ((k, buildTree k) :: st.cache).map Prod.fst
                |>.Perm (st.log ++ [k])
            rw [List.map_cons]
            exact (hp.cons k).trans (List.perm_append_singleton k st.log).symm
          · exact ((List.perm_append_singleton k st.log).symm).nodup_iff.mp
              (List.nodup_cons.mpr ⟨hklog, hn⟩)
          · have hset : ((st.log ++ [k]) ++ rest).toFinset
                = (st.log ++ k :: rest).toFinset := by
              ext x
              simp only [List.mem_toFinset, List.mem_append, List.mem_cons]
              tauto
            rw [hset]
            exact hcard

/-! ## C1 -/

/-- C1 (code bug): at the repository's own `test_fragment_from_component`
input — `html(t"<table><tr><{Columns} /></tr></table>")` with `Columns()`
returning `t"<td>Column 1</td><td>Column 2</td>"` — the component callable
in the tag-identity slot is resolved, its returned template is compiled to
a multi-child fragment, but that fragment is kept as a single nested child
of `<tr>` instead of its two `<td>` children being spliced into `<tr>`'s
child list, as the claim (and the test's expected tree) require. -/
theorem c1_component_fragment_kept_nested :
    htmlEvents 100 componentOuterEvents columnsBk =
      .ok (.elem "table" []
        [.elem "tr" []
          [.elem "" []
            [.elem "td" [] [.text "Column 1"],
             .elem "td" [] [.text "Column 2"]]]]) ∧
    htmlEvents 100 componentOuterEvents columnsBk ≠
      .ok (.elem "table" []
        [.elem "tr" []
          [.elem "td" [] [.text "Column 1"],
           .elem "td" [] [.text "Column 2"]]]) := by
  refine ⟨rfl, ?_⟩
  intro hcontra
  rw [show htmlEvents 100 componentOuterEvents columnsBk =
      .ok (.elem "table" []
        [.elem "tr" []
          [.elem "" []
            [.elem "td" [] [.text "Column 1"],
             .elem "td" [] [.text "Column 2"]]]]) from rfl] at hcontra
  simp at hcontra

/-! ## C2 -/

/-- C2 (counterexample): a resolved tree holding a raw (non-Safe) Text
child under a `script` element renders that content without text-context
escaping, so rendering does not escape the content of *every* non-Safe
Text node. -/
theorem c2_counterexample :
    strNode (.elem "script" [] [.text (.raw "a<b")]) = "<script>a<b</script>" ∧
    escapeText "a<b" = "a&lt;b" :=
  ⟨rfl, rfl⟩

/-- C2 (amended): rendering escapes each Text node's content for text
context unless it is a Safe Value (emitted verbatim) or the Text is a
direct child of a raw-content element, where it is emitted verbatim
regardless; a child interpolation whose string value contains `<script>`
renders escaped, and the same string wrapped as a Safe Value through the
"safe" format spec renders unescaped. -/
theorem c2_text_escaping_amended :
    (∀ s, strNode (.text (.raw s)) = escapeText s) ∧
    (∀ s, strNode (.text (.safe s)) = s) ∧
    (∀ s, strNode (.elem "script" [] [.text (.raw s)])
      = "<script>" ++ s ++ "</script>") ∧
    (htmlProc 10 (.elem "p" [] [.text (.raw (placeholder 0))])
      [(.vstr "<script>", none)]).map strNode = .ok "<p>&lt;script&gt;</p>" ∧
    (htmlProc 10 (.elem "p" [] [.text (.raw (placeholder 0))])
      [(.vstr "<script>", some "safe")]).map strNode = .ok "<p><script></p>" := by
  refine ⟨fun s => rfl, fun s => rfl, fun s => ?_, rfl, rfl⟩
  have h : strNode (.elem "script" [] [.text (.raw s)])
      = "<" ++ "script" ++ "" ++ ">" ++ (s ++ "") ++ "</" ++ "script" ++ ">" := rfl
  rw [h]
  simp only [String.append_assoc, String.append_empty]
  rfl

/-! ## C3 -/

/-- C3 (counterexample): a wrong-typed value for the reserved attribute
key `style` — an int — does not raise any error: it is stringified into a
style attribute. -/
theorem c3_counterexample :
    substituteAttr "style" (.vint 7) = .ok [("style", some "7")] ∧
    substituteAttr "style" (.vint 7)
      ≠ .error (.typeError "Cannot use int as value for style attributes") := by
  refine ⟨rfl, ?_⟩
  intro h
  rw [show substituteAttr "style" (.vint 7) = .ok [("style", some "7")]
    from rfl] at h
  simp at h

/-- C3 (amended): coercion failures raise an error carrying the offending
attribute kind/position — wrong-typed `data`/`aria` values and non-mapping
spread values raise `TypeError` naming the kind (never a silent drop), and
an invalid tag substitution raises `ValueError` naming the value — except
for the reserved key `style`, whose wrong-typed values are stringified
instead of failing. -/
theorem c3_coercion_failure_amended :
    (∀ n : Int, substituteAttr "data" (.vint n)
      = .error (.typeError "Cannot use int as value for data attributes")) ∧
    (∀ n : Int, substituteAttr "aria" (.vint n)
      = .error (.typeError "Cannot use int as value for aria attributes")) ∧
    (∀ n : Int, substituteSpreadAttrs (.vint n)
      = .error (.typeError "Cannot use int as value for spread attributes")) ∧
    (∀ b, substituteSpreadAttrs (.vbool b)
      = .error (.typeError "Cannot use bool as value for spread attributes")) ∧
    substituteSpreadAttrs .vnone
      = .error (.typeError "Cannot use NoneType as value for spread attributes") ∧
    (∀ s, s ≠ "" → substituteSpreadAttrs (.vstr s)
      = .error (.typeError "Cannot use str as value for spread attributes")) ∧
    (∀ (n : Int) (fuel : Nat),
      resolveTag (fuel + 1) "ts-bk-0" [("ts-bk-0", .hint n)] [] []
        = .error (.valueError ("Invalid tag substitution: " ++ toString n))) ∧
    (∀ n : Int, substituteAttr "style" (.vint n)
      = .ok [("style", some (toString n))]) := by
  refine ⟨fun n => rfl, fun n => rfl, fun n => rfl, fun b => ?_, rfl,
    fun s hs => ?_, fun n fuel => rfl, fun n => rfl⟩
  · cases b <;> rfl
  · simp only [substituteSpreadAttrs, forceDict, dictOfValue, if_neg hs, typeName]
    rfl

/-- C3 (witness): the amended theorem applied at the non-mapping spread
value "oops". -/
theorem c3_coercion_failure_amended_witness :
    substituteSpreadAttrs (.vstr "oops")
      = .error (.typeError "Cannot use str as value for spread attributes") :=
  c3_coercion_failure_amended.2.2.2.2.2.1 "oops" (by decide)

/-! ## C4 -/

/-- C4 (counterexample): on a non-reserved key, a value of another type
(an int) raises a `TypeError` instead of being stringified into the
attribute value. -/
theorem c4_counterexample :
    substituteAttr "id" (.vint 7) = .error (.typeError
      "Cannot use int as attribute value for attribute \x27id\x27") ∧
    substituteAttr "id" (.vint 7) ≠ .ok [("id", some "7")] := by
  exact ⟨rfl, by simp [substituteAttr]⟩

/-- C4 (amended): for a non-reserved attribute key — a string value is
used as-is, `True` yields a valueless boolean attribute, `False`/`None`
omit the attribute, a mapping or an iterable expands into multiple
attributes, and a value of any other type raises a `TypeError` naming the
attribute (it is not stringified). -/
theorem c4_plain_attr_amended (key : String) (h1 : key ≠ "class")
    (h2 : key ≠ "data") (h3 : key ≠ "style") (h4 : key ≠ "aria") :
    (∀ s, substituteAttr key (.vstr s) = .ok [(key, some s)]) ∧
    substituteAttr key (.vbool true) = .ok [(key, none)] ∧
    substituteAttr key (.vbool false) = .ok [] ∧
    substituteAttr key .vnone = .ok [] ∧
    (∀ d, substituteAttr key (.vdict d)
      = .ok (d.filterMap (fun kv => plainSubEntry kv.1 kv.2))) ∧
    (∀ items, substituteAttr key (.vlist items) = substituteAttrIter key items) ∧
    (∀ n : Int, substituteAttr key (.vint n) = .error (.typeError
      ("Cannot use int as attribute value for attribute \x27" ++ key ++ "\x27"))) := by
  refine ⟨fun s => ?_, ?_, ?_, ?_, fun d => ?_, fun items => ?_, fun n => ?_⟩ <;>
    (simp only [substituteAttr, if_neg h1, if_neg h2, if_neg h3, if_neg h4,
      typeName]; try rfl)

/-- C4 (witness): the amended theorem applied at the non-reserved key
"href" with the boolean value `True`. -/
theorem c4_plain_attr_amended_witness :
    substituteAttr "href" (.vbool true) = .ok [("href", none)] :=
  (c4_plain_attr_amended "href" (by decide) (by decide) (by decide)
    (by decide)).2.1

/-! ## C5 -/

/-- C5 (counterexample): an `aria` mapping with a `None` subvalue omits
the `aria-` attribute entirely; it is not stringified to "None" as the
claim's "other subvalues are stringified" requires. -/
theorem c5_counterexample :
    substituteAriaAttrs (.vdict [("hidden", .vnone)]) = .ok [] ∧
    (Except.ok [] : Except SubErr (List (String × Option String)))
      ≠ .ok [("aria-hidden", some "None")] :=
  ⟨rfl, by simp⟩

/-- C5 (amended): a `data` mapping expands into `data-<subkey>` attributes
with `True` yielding a valueless attribute and `False`/`None` omitted and
other subvalues stringified; an `aria` mapping expands into `aria-<subkey>`
attributes with booleans rendered as the literal strings "true"/"false",
`None` subvalues omitted, and other subvalues stringified. -/
theorem c5_data_aria_amended :
    (∀ k, substituteAriaAttrs (.vdict [(k, .vbool true)])
      = .ok [("aria-" ++ k, some "true")]) ∧
    (∀ k, substituteAriaAttrs (.vdict [(k, .vbool false)])
      = .ok [("aria-" ++ k, some "false")]) ∧
    (∀ k, substituteAriaAttrs (.vdict [(k, .vnone)]) = .ok []) ∧
    (∀ k (n : Int), substituteAriaAttrs (.vdict [(k, .vint n)])
      = .ok [("aria-" ++ k, some (toString n))]) ∧
    (∀ k s, substituteAriaAttrs (.vdict [(k, .vstr s)])
      = .ok [("aria-" ++ k, some s)]) ∧
    (∀ k, substituteDataAttrs (.vdict [(k, .vbool true)])
      = .ok [("data-" ++ k, none)]) ∧
    (∀ k, substituteDataAttrs (.vdict [(k, .vbool false)]) = .ok []) ∧
    (∀ k, substituteDataAttrs (.vdict [(k, .vnone)]) = .ok []) ∧
    (∀ k s, substituteDataAttrs (.vdict [(k, .vstr s)])
      = .ok [("data-" ++ k, some s)]) ∧
    (∀ k (n : Int), n ≠ 0 → substituteDataAttrs (.vdict [(k, .vint n)])
      = .ok [("data-" ++ k, some (toString n))]) := by
  refine ⟨fun k => rfl, fun k => rfl, fun k => rfl, fun k n => rfl,
    fun k s => rfl, fun k => rfl, fun k => rfl, fun k => rfl, fun k s => rfl,
    fun k n hn => ?_⟩
  simp [substituteDataAttrs, forceDict, dictOfValue, eqFalseOrNone, hn, pyStr]

/-- C5 (witness): the amended theorem applied at a `data` mapping with the
non-zero int subvalue 7. -/
theorem c5_data_aria_amended_witness :
    substituteDataAttrs (.vdict [("count", .vint 7)])
      = .ok [("data-count", some "7")] :=
  c5_data_aria_amended.2.2.2.2.2.2.2.2.2 "count" 7 (by decide)

/-! ## C6 -/

/-- C6 (counterexample): a `style` value that is neither a mapping nor a
string (an int) does not fail: the `TypeError` of `_force_dict` is caught
and the value is stringified into the attribute. -/
theorem c6_counterexample :
    substituteStyleAttr (.vint 5) = .ok [("style", some "5")] ∧
    substituteStyleAttr (.vint 5)
      ≠ .error (.typeError "Cannot use int as value for style attributes") := by
  refine ⟨rfl, ?_⟩
  intro h
  rw [show substituteStyleAttr (.vint 5) = .ok [("style", some "5")]
    from rfl] at h
  simp at h

/-- C6 (amended): a `style` mapping is joined as `prop: value` pairs
separated by "; "; a string is used verbatim; any other value is
stringified into the style attribute — the coercion never fails. -/
theorem c6_style_amended :
    (∀ d, substituteStyleAttr (.vdict d) = .ok [("style", some (joinStyle d))]) ∧
    (∀ s, substituteStyleAttr (.vstr s) = .ok [("style", some s)]) ∧
    (∀ n : Int, substituteStyleAttr (.vint n)
      = .ok [("style", some (toString n))]) ∧
    (∀ b, substituteStyleAttr (.vbool b)
      = .ok [("style", some (pyStr (.vbool b)))]) ∧
    substituteStyleAttr .vnone = .ok [("style", some "None")] := by
  refine ⟨fun d => rfl, fun s => ?_, fun n => rfl, fun b => ?_, rfl⟩
  · by_cases h : s = ""
    · subst h; rfl
    · simp [substituteStyleAttr, forceDict, dictOfValue, h, pyStr]
  · cases b <;> rfl

/-! ## C7 -/

set_option maxRecDepth 10000 in
/-- C7 (counterexample): `functools.lru_cache()`'s default `maxsize=128`
evicts: after 129 distinct literal-segment sequences, re-requesting the
first one rebuilds it, so a sequence can be built twice in one process
lifetime. -/
theorem c7_counterexample :
    (runCache (List.range 129 ++ [0])).log.count 0 = 2 ∧
    ¬(runCache (List.range 129 ++ [0])).log.count 0 ≤ 1 := by
  have h : (runCache (List.range 129 ++ [0])).log.count 0 = 2 := by decide
  exact ⟨h, by omega⟩

/-- C7 (amended): the template cache is a 128-entry LRU: a lookup whose
literal-segment sequence is cached returns the already-built placeholder
tree with no new build, and along any run touching at most 128 distinct
literal sequences each sequence is built at most once. -/
theorem c7_cache_amended :
    (∀ (st : CacheState) (k v : Nat), cacheLookup st.cache k = some v →
      (getOrBuild st k).1 = v ∧ ((getOrBuild st k).2).log = st.log) ∧
    (∀ trace : List Nat, trace.toFinset.card ≤ cacheCapacity →
      ∀ k, (runCache trace).log.count k ≤ 1) := by
  constructor
  · intro st k v h
    constructor <;> simp [getOrBuild, h]
  · intro trace h k
    have h0 : (([] : List Nat) ++ trace).toFinset.card ≤ cacheCapacity := by
      simpa using h
    have hn := lruRunInv trace emptyCache (by simp [emptyCache])
      (by simp [emptyCache]) h0
    exact List.nodup_iff_count_le_one.mp hn k

/-- C7 (witness): the amended theorem applied at a one-entry cached state
and at the two-lookup trace `[5, 5]`. -/
theorem c7_cache_amended_witness :
    ((getOrBuild ⟨[(3, 3)], [3]⟩ 3).1 = 3 ∧
      ((getOrBuild ⟨[(3, 3)], [3]⟩ 3).2).log = [3]) ∧
    (runCache [5, 5]).log.count 5 ≤ 1 :=
  ⟨c7_cache_amended.1 ⟨[(3, 3)], [3]⟩ 3 3 rfl,
   c7_cache_amended.2 [5, 5] (by decide) 5⟩

/-! ## C8 -/

/-- C8: the three spellings of a void element compile to the same single
childless void element.  Per CPython, `<br>` tokenizes to one start event,
while `<br />` (via `handle_startendtag`) and `<br></br>` both tokenize to
a start event followed by an explicit end event; both event shapes build
the same root, and the compiled element is the childless `<br>`. -/
theorem c8_void_normalization :
    parseEvents [.start "br" []] = .ok ("br", [], []) ∧
    parseEvents [.start "br" [], .endTag "br"] = .ok ("br", [], []) ∧
    htmlEvents 10 [.start "br" []] [] = .ok (.elem "br" [] []) ∧
    htmlEvents 10 [.start "br" [], .endTag "br"] [] = .ok (.elem "br" [] []) :=
  ⟨rfl, rfl, rfl, rfl⟩

/-! ## C9 -/

/-- C9 (counterexample): an end-tag event for a void element arriving at
the synthetic root while the root has no children at all fails with an
`IndexError` (the `children[-1]` subscript), not with the structural
markup `ValueError`. -/
theorem c9_counterexample :
    handleEndtag "br" [⟨"", [], []⟩] = .error .indexError ∧
    SubErr.indexError ≠ SubErr.valueError
      "Unexpected closing tag </br> with no matching opening tag." :=
  ⟨rfl, by simp⟩

/-- C9 (amended): when an end-tag event for a void element arrives while
the top of the builder stack is the synthetic root — if the last completed
child of the root is an element with that tag, the event is silently
discarded; if the last child is any other element or a text child, the
builder fails with the structural markup error; but if the root has no
children at all, the duplicate check itself fails with an index error
rather than the structural markup error. -/
theorem c9_void_end_at_root_amended (tag : String) (h : tag ∈ voidElements) :
    (∀ pre attrs cs, handleEndtag tag [⟨"", [], pre ++ [.node tag attrs cs]⟩]
      = .ok [⟨"", [], pre ++ [.node tag attrs cs]⟩]) ∧
    (∀ pre t2 attrs cs, t2 ≠ tag →
      handleEndtag tag [⟨"", [], pre ++ [.node t2 attrs cs]⟩]
        = .error (.valueError ("Unexpected closing tag </" ++ tag
            ++ "> with no matching opening tag."))) ∧
    (∀ pre s, handleEndtag tag [⟨"", [], pre ++ [.text s]⟩]
      = .error (.valueError ("Unexpected closing tag </" ++ tag
          ++ "> with no matching opening tag."))) ∧
    handleEndtag tag [⟨"", [], []⟩] = .error .indexError := by
  have hc : voidElements.contains tag = true := List.elem_eq_true_of_mem h
  refine ⟨fun pre attrs cs => ?_, fun pre t2 attrs cs ht => ?_,
    fun pre s => ?_, ?_⟩
  · simp [handleEndtag, hc, List.getLast?_concat, h]
  · simp [handleEndtag, hc, List.getLast?_concat, h, ht]
  · simp [handleEndtag, hc, List.getLast?_concat, h]
  · simp [handleEndtag, hc, h]

/-- C9 (witness): the amended theorem applied at the void tag `br` with a
root whose last completed child is already a `br` element. -/
theorem c9_void_end_at_root_amended_witness :
    handleEndtag "br" [⟨"", [], [PTup.node "br" [] []]⟩]
      = .ok [⟨"", [], [PTup.node "br" [] []]⟩] :=
  (c9_void_end_at_root_amended "br" (by decide)).1 [] [] []

/-! ## C10 -/

/-- C10 (code bug): neither boolean ever becomes a `Text` node — a boolean
child interpolation reaches `case HasHTMLDunder():`, whose `isinstance`
against the non-`@runtime_checkable` Protocol raises `TypeError` before
the source's dead `case False:` and stringify arms; so both `False` and
`True` raise instead of resolving to the empty `Text` / `Text("True")`
that the claim (and §4.4's child-content table: `false` contributes
nothing, anything else stringified) prescribes. -/
theorem c10_bool_child_typeerror :
    ∀ fuel : Nat,
      nodeFromValue (fuel + 1) (.vbool false)
        = .error (.typeError
          "Instance and class checks can only be used with @runtime_checkable protocols") ∧
      nodeFromValue (fuel + 1) (.vbool true)
        = .error (.typeError
          "Instance and class checks can only be used with @runtime_checkable protocols") ∧
      substituteNode (fuel + 2) (.text (.raw (placeholder 0)))
        [(.vbool false, none)]
        = .error (.typeError
          "Instance and class checks can only be used with @runtime_checkable protocols") ∧
      substituteNode (fuel + 2) (.text (.raw (placeholder 0)))
        [(.vbool true, none)]
        = .error (.typeError
          "Instance and class checks can only be used with @runtime_checkable protocols") :=
  fun _ => ⟨rfl, rfl, rfl, rfl⟩
